import Mathlib

/-!
Verification of the semantic-comparison kernel of the analyzer app
(semantic_analyzer.py): the similarity metric, the category classifier,
the semantic-field ranker and the cross-lingual comparator.

Embedding conventions:
- numpy float vectors are modelled as lists of real numbers;
- a Python call that can raise is modelled as an Except value, and the
  specific exceptions that can occur in this kernel are collected in the
  PyErr type below;
- the float division by a zero denominator in compute_similarity does not
  raise in numpy (it yields NaN or an infinity); it is modelled by the
  real-number convention that division by zero yields zero, which likewise
  does not fail.
-/

/-- Exceptions that the kernel can raise.
dimensionMismatch is the ValueError that numpy's dot raises on two 1-D
arrays of different lengths (the spec's DimensionMismatch).
categoryKeyError is the KeyError a miss of SEMANTIC_CONTEXT[category]
would raise; it is unreachable because the classifier only produces the
three fixed keys.
unsupportedLanguage is the KeyError raised by the inner lookup
SEMANTIC_CONTEXT[category][lang] (the spec's UnsupportedLanguage). -/
inductive PyErr where
  | dimensionMismatch : PyErr
  | categoryKeyError : PyErr
  | unsupportedLanguage : PyErr

/-- Value of numpy's dot on two equal-length 1-D arrays. -/
noncomputable def np_dot_val (v1 v2 : List ℝ) : ℝ :=
  (List.zipWith (fun x y => x * y) v1 v2).sum

/-- Model of np.dot on 1-D arrays: a ValueError when the shapes differ,
the sum of pointwise products otherwise. -/
noncomputable def np_dot (v1 v2 : List ℝ) : Except PyErr ℝ :=
  if v1.length = v2.length then Except.ok (np_dot_val v1 v2)
  else Except.error PyErr.dimensionMismatch

/-- Model of np.linalg.norm on a 1-D array: the square root of the sum of
the squares of the entries. -/
noncomputable def np_norm (v : List ℝ) : ℝ :=
  Real.sqrt ((v.map (fun x => x * x)).sum)

/-- Model of compute_similarity (semantic_analyzer.py lines 67-72):
dot product of the two vectors divided by the product of their norms.
The only failure is the one np.dot raises on mismatched shapes; a zero
denominator is not checked. -/
noncomputable def compute_similarity (v1 v2 : List ℝ) : Except PyErr ℝ :=
  match np_dot v1 v2 with
  | Except.error e => Except.error e
  | Except.ok dot_product => Except.ok (dot_product / (np_norm v1 * np_norm v2))

/-- The category probe phrases of get_semantic_category, in the insertion
order of the probes dict: animal, human, object. -/
def probes : List (String × String) :=
  [("animal", "animal pet creature"),
   ("human", "human person people"),
   ("object", "thing object item")]

/-- Model of Python's max over a nonempty association list keyed by the
score, as used on similarities.items(): the accumulator is replaced only
when a strictly greater score is seen, so on ties the earliest entry wins.
The empty-list default is unreachable in this program (the probe dict is
nonempty). -/
noncomputable def pyMax : List (String × ℝ) → String × ℝ
  | [] => ("", 0)
  | x :: xs => xs.foldl (fun acc y => if acc.2 < y.2 then y else acc) x

/-- The loop of get_semantic_category lines 93-96: score each probe phrase
against the text embedding, in probe order, propagating the first
exception. -/
noncomputable def categoryScores (text_embedding : List ℝ)
    (embed : String → List ℝ) : List (String × String) → Except PyErr (List (String × ℝ))
  | [] => Except.ok []
  | p :: ps =>
    match compute_similarity text_embedding (embed p.2), categoryScores text_embedding embed ps with
    | Except.error e, _ => Except.error e
    | Except.ok _, Except.error e => Except.error e
    | Except.ok s, Except.ok rest => Except.ok ((p.1, s) :: rest)

/-- Model of get_semantic_category (lines 79-99): embed the text, score it
against every category probe, and return the key of the maximal score
(first one on ties). There is no emptiness check on the text. -/
noncomputable def get_semantic_category (text : String)
    (embed : String → List ℝ) : Except PyErr String :=
  match categoryScores (embed text) embed probes with
  | Except.error e => Except.error e
  | Except.ok similarities => Except.ok (pyMax similarities).1

/-- The SEMANTIC_CONTEXT table (lines 28-53): for each category, for each
language, the ordered vocabulary list. -/
def SEMANTIC_CONTEXT : List (String × List (String × List String)) :=
  [("animal",
    [("English", ["animal", "pet", "creature", "mammal", "wildlife", "companion"]),
     ("Chinese", ["动物", "宠物", "生物", "哺乳动物", "野生动物", "伙伴"]),
     ("Spanish", ["animal", "mascota", "criatura", "mamífero", "fauna", "compañero"]),
     ("French", ["animal", "animal de compagnie", "créature", "mammifère", "faune", "compagnon"]),
     ("Japanese", ["動物", "ペット", "生き物", "哺乳類", "野生動物", "仲間"])]),
   ("human",
    [("English", ["person", "human", "individual", "people", "adult", "being"]),
     ("Chinese", ["人", "人类", "个人", "人们", "成人", "生命"]),
     ("Spanish", ["persona", "humano", "individuo", "gente", "adulto", "ser"]),
     ("French", ["personne", "humain", "individu", "gens", "adulte", "être"]),
     ("Japanese", ["人", "人間", "個人", "人々", "大人", "存在"])]),
   ("object",
    [("English", ["thing", "object", "item", "material", "substance", "matter"]),
     ("Chinese", ["东西", "物体", "物品", "材料", "物质", "事物"]),
     ("Spanish", ["cosa", "objeto", "elemento", "material", "sustancia", "materia"]),
     ("French", ["chose", "objet", "article", "matériel", "substance", "matière"]),
     ("Japanese", ["物", "物体", "品物", "材料", "物質", "事物"])])]

/-- The loop of get_semantic_field lines 114-117: score each vocabulary
word against the text embedding, in vocabulary order, propagating the
first exception. -/
noncomputable def wordScores (text_embedding : List ℝ)
    (embed : String → List ℝ) : List String → Except PyErr (List (String × ℝ))
  | [] => Except.ok []
  | w :: ws =>
    match compute_similarity text_embedding (embed w), wordScores text_embedding embed ws with
    | Except.error e, _ => Except.error e
    | Except.ok _, Except.error e => Except.error e
    | Except.ok s, Except.ok rest => Except.ok ((w, s) :: rest)

/-- The sort comparator of line 119: Python's sorted with the score as key
and reverse set, which is a stable sort into non-increasing score order. -/
noncomputable def scoreDesc (a b : String × ℝ) : Bool := decide (b.2 ≤ a.2)

/-- Model of get_semantic_field (lines 101-119): re-derive the category
from the text, look the category and then the language up in
SEMANTIC_CONTEXT (a missing language is a KeyError), score every
vocabulary word, and stably sort the pairs by descending score. -/
noncomputable def get_semantic_field (text lang : String)
    (embed : String → List ℝ) : Except PyErr (List (String × ℝ)) :=
  match get_semantic_category text embed with
  | Except.error e => Except.error e
  | Except.ok category =>
    match List.lookup category SEMANTIC_CONTEXT with
    | none => Except.error PyErr.categoryKeyError
    | some byLang =>
      match List.lookup lang byLang with
      | none => Except.error PyErr.unsupportedLanguage
      | some context_words =>
        match wordScores (embed text) embed context_words with
        | Except.error e => Except.error e
        | Except.ok similarities => Except.ok (similarities.mergeSort scoreDesc)

/-- Model of the analysis step of main (lines 186-192): the overall
similarity of the two text embeddings, then the two semantic fields,
each computed with its own language tag. -/
noncomputable def analyze (text1 lang1 text2 lang2 : String)
    (embed : String → List ℝ) : Except PyErr (ℝ × List (String × ℝ) × List (String × ℝ)) :=
  match compute_similarity (embed text1) (embed text2) with
  | Except.error e => Except.error e
  | Except.ok similarity =>
    match get_semantic_field text1 lang1 embed with
    | Except.error e => Except.error e
    | Except.ok field1 =>
      match get_semantic_field text2 lang2 embed with
      | Except.error e => Except.error e
      | Except.ok field2 => Except.ok (similarity, field1, field2)

/-- Spec-side dot product, written from the spec's words: the sum over the
common index range of the products of corresponding coordinates. -/
noncomputable def dotProductSpec (a b : List ℝ) : ℝ :=
  ∑ i ∈ Finset.range (min a.length b.length), a.getD i 0 * b.getD i 0

/-- Spec-side Euclidean norm, written from the spec's words: the square
root of the sum of the squared coordinates. -/
noncomputable def euclideanNormSpec (v : List ℝ) : ℝ :=
  Real.sqrt (∑ i ∈ Finset.range v.length, (v.getD i 0) ^ 2)

/-- Spec-side tie-breaking argmax, written from the spec's words: the
first entry of the list whose score every entry's score is at most, with
an irrelevant default for the empty list. -/
noncomputable def firstMaxSpec (l : List (String × ℝ)) : String :=
  ((l.find? (fun p => decide (∀ q ∈ l, q.2 ≤ p.2))).getD ("", 0)).1

/-- A concrete embedding function for witnesses: every text is sent to the
one-dimensional vector with single coordinate one. -/
noncomputable def embedOne : String → List ℝ := fun _ => [1]

theorem np_dot_val_eq_spec : ∀ (a b : List ℝ), np_dot_val a b = dotProductSpec a b
  | [], b => by simp [np_dot_val, dotProductSpec]
  | a :: as, [] => by simp [np_dot_val, dotProductSpec]
  | a :: as, b :: bs => by
    have ih := np_dot_val_eq_spec as bs
    simp only [np_dot_val, dotProductSpec] at ih ⊢
    simp only [List.zipWith_cons_cons, List.sum_cons, List.length_cons,
      Nat.succ_min_succ, Finset.sum_range_succ', List.getD_cons_succ, List.getD_cons_zero]
    rw [ih, add_comm]

theorem sum_map_sq_eq : ∀ (v : List ℝ),
    (v.map (fun x => x * x)).sum = ∑ i ∈ Finset.range v.length, (v.getD i 0) ^ 2
  | [] => by simp
  | x :: xs => by
    have ih := sum_map_sq_eq xs
    simp only [List.map_cons, List.sum_cons, List.length_cons,
      Finset.sum_range_succ', List.getD_cons_succ, List.getD_cons_zero]
    rw [ih, pow_two, add_comm]

theorem np_norm_eq_spec (v : List ℝ) : np_norm v = euclideanNormSpec v := by
  rw [np_norm, euclideanNormSpec, sum_map_sq_eq]

/-- C4: for equal-dimension vectors of nonzero magnitude, the similarity
metric returns the dot product divided by the product of the Euclidean
norms (cosine similarity), with no clamping of the result. -/
theorem similarity_is_cosine (v1 v2 : List ℝ) (hlen : v1.length = v2.length)
    (h1 : np_norm v1 ≠ 0) (h2 : np_norm v2 ≠ 0) :
    compute_similarity v1 v2 =
      Except.ok (dotProductSpec v1 v2 / (euclideanNormSpec v1 * euclideanNormSpec v2)) := by
  have hd : np_dot v1 v2 = Except.ok (np_dot_val v1 v2) := by rw [np_dot, if_pos hlen]
  simp only [compute_similarity, hd]
  rw [np_dot_val_eq_spec, np_norm_eq_spec v1, np_norm_eq_spec v2]

theorem similarity_is_cosine_witness :
    ([(1 : ℝ)].length = [(-1 : ℝ)].length) ∧ np_norm [(1 : ℝ)] ≠ 0 ∧ np_norm [(-1 : ℝ)] ≠ 0 ∧
    compute_similarity [(1 : ℝ)] [(-1 : ℝ)] =
      Except.ok (dotProductSpec [(1 : ℝ)] [(-1 : ℝ)] /
        (euclideanNormSpec [(1 : ℝ)] * euclideanNormSpec [(-1 : ℝ)])) := by
  have h1 : np_norm [(1 : ℝ)] ≠ 0 := by simp [np_norm]
  have h2 : np_norm [(-1 : ℝ)] ≠ 0 := by simp [np_norm]
  exact ⟨rfl, h1, h2, similarity_is_cosine _ _ rfl h1 h2⟩

/-- C5 counterexample: on two zero vectors the metric does not fail; the
division is performed with a zero denominator and the call returns
normally (in numpy the value is NaN with only a runtime warning; under
the real-number division convention of this model the value is zero).
There is no zero-magnitude check anywhere in compute_similarity, and no
ZeroMagnitude error exists in the code. -/
theorem zero_vector_similarity_counterexample :
    compute_similarity [(0 : ℝ)] [(0 : ℝ)] = Except.ok 0 := by
  simp [compute_similarity, np_dot, np_dot_val, np_norm]

/-- C5 amended: for equal-length vectors of which at least one has zero
magnitude, the metric does not raise a typed error; it returns normally
with the (meaningless) quotient of the dot product by the zero
denominator. -/
theorem zero_magnitude_no_failure (v1 v2 : List ℝ) (hlen : v1.length = v2.length)
    (hz : np_norm v1 = 0 ∨ np_norm v2 = 0) :
    ∃ r : ℝ, compute_similarity v1 v2 = Except.ok r := by
  refine ⟨np_dot_val v1 v2 / (np_norm v1 * np_norm v2), ?_⟩
  simp [compute_similarity, np_dot, hlen]

theorem zero_magnitude_no_failure_witness :
    ([(0 : ℝ)].length = [(0 : ℝ)].length) ∧ np_norm [(0 : ℝ)] = 0 ∧
    (∃ r : ℝ, compute_similarity [(0 : ℝ)] [(0 : ℝ)] = Except.ok r) := by
  have hz : np_norm [(0 : ℝ)] = 0 := by simp [np_norm]
  exact ⟨rfl, hz, zero_magnitude_no_failure _ _ rfl (Or.inl hz)⟩

/-- C9: on two vectors of differing dimensionality the similarity metric
fails with the dimension-mismatch error (the ValueError numpy's dot
raises on mismatched 1-D shapes, the spec's DimensionMismatch). -/
theorem dimension_mismatch_fails (v1 v2 : List ℝ) (h : v1.length ≠ v2.length) :
    compute_similarity v1 v2 = Except.error PyErr.dimensionMismatch := by
  simp only [compute_similarity, np_dot, if_neg h]

theorem dimension_mismatch_fails_witness :
    ([(1 : ℝ), 1, 1].length ≠ [(1 : ℝ), 1, 1, 1].length) ∧
    compute_similarity [(1 : ℝ), 1, 1] [(1 : ℝ), 1, 1, 1] =
      Except.error PyErr.dimensionMismatch := by
  have h : [(1 : ℝ), 1, 1].length ≠ [(1 : ℝ), 1, 1, 1].length := by simp
  exact ⟨h, dimension_mismatch_fails _ _ h⟩

theorem sim_one : compute_similarity [(1 : ℝ)] [(1 : ℝ)] = Except.ok 1 := by
  have hd : np_dot [(1 : ℝ)] [(1 : ℝ)] = Except.ok 1 := by
    simp [np_dot, np_dot_val]
  simp [compute_similarity, hd, np_norm]

theorem pyMax_three_eq_firstMax (a b c : String × ℝ) :
    (pyMax [a, b, c]).1 = firstMaxSpec [a, b, c] := by
  have memb : b ∈ [a, b, c] := by simp
  have memc : c ∈ [a, b, c] := by simp
  simp only [pyMax, List.foldl, firstMaxSpec]
  rcases lt_or_le a.2 b.2 with hab | hab
  · rw [if_pos hab]
    rcases lt_or_le b.2 c.2 with hbc | hbc
    · rw [if_pos hbc]
      have pa : decide (∀ q ∈ [a, b, c], q.2 ≤ a.2) = false := by
        simp only [decide_eq_false_iff_not]
        intro hall
        exact absurd (hall b memb) (not_le.mpr hab)
      have pb : decide (∀ q ∈ [a, b, c], q.2 ≤ b.2) = false := by
        simp only [decide_eq_false_iff_not]
        intro hall
        exact absurd (hall c memc) (not_le.mpr hbc)
      have pc : decide (∀ q ∈ [a, b, c], q.2 ≤ c.2) = true := by
        simp only [decide_eq_true_eq]
        intro q hq
        simp only [List.mem_cons, List.not_mem_nil, or_false] at hq
        rcases hq with h1 | h1 | h1
        · rw [h1]; exact (hab.trans hbc).le
        · rw [h1]; exact hbc.le
        · rw [h1]
      simp only [List.find?_cons, pa, pb, pc, Option.getD_some]
    · rw [if_neg (not_lt.mpr hbc)]
      have pa : decide (∀ q ∈ [a, b, c], q.2 ≤ a.2) = false := by
        simp only [decide_eq_false_iff_not]
        intro hall
        exact absurd (hall b memb) (not_le.mpr hab)
      have pb : decide (∀ q ∈ [a, b, c], q.2 ≤ b.2) = true := by
        simp only [decide_eq_true_eq]
        intro q hq
        simp only [List.mem_cons, List.not_mem_nil, or_false] at hq
        rcases hq with h1 | h1 | h1
        · rw [h1]; exact hab.le
        · rw [h1]
        · rw [h1]; exact hbc
      simp only [List.find?_cons, pa, pb, Option.getD_some]
  · rw [if_neg (not_lt.mpr hab)]
    rcases lt_or_le a.2 c.2 with hac | hac
    · rw [if_pos hac]
      have pa : decide (∀ q ∈ [a, b, c], q.2 ≤ a.2) = false := by
        simp only [decide_eq_false_iff_not]
        intro hall
        exact absurd (hall c memc) (not_le.mpr hac)
      have pb : decide (∀ q ∈ [a, b, c], q.2 ≤ b.2) = false := by
        simp only [decide_eq_false_iff_not]
        intro hall
        exact absurd (hall c memc) (not_le.mpr (lt_of_le_of_lt hab hac))
      have pc : decide (∀ q ∈ [a, b, c], q.2 ≤ c.2) = true := by
        simp only [decide_eq_true_eq]
        intro q hq
        simp only [List.mem_cons, List.not_mem_nil, or_false] at hq
        rcases hq with h1 | h1 | h1
        · rw [h1]; exact hac.le
        · rw [h1]; exact hab.trans hac.le
        · rw [h1]
      simp only [List.find?_cons, pa, pb, pc, Option.getD_some]
    · rw [if_neg (not_lt.mpr hac)]
      have pa : decide (∀ q ∈ [a, b, c], q.2 ≤ a.2) = true := by
        simp only [decide_eq_true_eq]
        intro q hq
        simp only [List.mem_cons, List.not_mem_nil, or_false] at hq
        rcases hq with h1 | h1 | h1
        · rw [h1]
        · rw [h1]; exact hab
        · rw [h1]; exact hac
      simp only [List.find?_cons, pa, Option.getD_some]

/-- C1: whenever the three probe similarity computations succeed, the
classifier returns exactly the first category, in the fixed order animal,
human, object, whose score every probe score is at most: the maximal
score wins and ties go to the earliest category. -/
theorem classifier_first_argmax (text : String) (embed : String → List ℝ) (sa sh so : ℝ)
    (ha : compute_similarity (embed text) (embed "animal pet creature") = Except.ok sa)
    (hh : compute_similarity (embed text) (embed "human person people") = Except.ok sh)
    (ho : compute_similarity (embed text) (embed "thing object item") = Except.ok so) :
    get_semantic_category text embed =
      Except.ok (firstMaxSpec [("animal", sa), ("human", sh), ("object", so)]) := by
  have hcs : categoryScores (embed text) embed probes =
      Except.ok [("animal", sa), ("human", sh), ("object", so)] := by
    simp only [categoryScores, probes, ha, hh, ho]
  simp only [get_semantic_category, hcs]
  rw [pyMax_three_eq_firstMax]

theorem classifier_first_argmax_witness :
    compute_similarity (embedOne "cat") (embedOne "animal pet creature") = Except.ok 1 ∧
    get_semantic_category "cat" embedOne =
      Except.ok (firstMaxSpec [("animal", 1), ("human", 1), ("object", 1)]) :=
  ⟨sim_one, classifier_first_argmax "cat" embedOne 1 1 1 sim_one sim_one sim_one⟩

theorem foldl_pymax_mem : ∀ (xs : List (String × ℝ)) (acc : String × ℝ),
    xs.foldl (fun a y => if a.2 < y.2 then y else a) acc ∈ acc :: xs := by
  intro xs
  induction xs with
  | nil => intro acc; simp
  | cons y ys ih =>
    intro acc
    simp only [List.foldl]
    have h2 := ih (if acc.2 < y.2 then y else acc)
    rcases List.mem_cons.mp h2 with h3 | h3
    · rw [h3]
      by_cases hc : acc.2 < y.2
      · rw [if_pos hc]
        exact List.mem_cons_of_mem _ (List.mem_cons_self _ _)
      · rw [if_neg hc]
        exact List.mem_cons_self _ _
    · exact List.mem_cons_of_mem _ (List.mem_cons_of_mem _ h3)

theorem pyMax_mem (x : String × ℝ) (xs : List (String × ℝ)) :
    pyMax (x :: xs) ∈ x :: xs := by
  simp only [pyMax]
  exact foldl_pymax_mem xs x

theorem categoryScores_ok_map_fst :
    ∀ (ps : List (String × String)) (te : List ℝ) (e : String → List ℝ)
      (sims : List (String × ℝ)), categoryScores te e ps = Except.ok sims →
      sims.map Prod.fst = ps.map Prod.fst := by
  intro ps
  induction ps with
  | nil =>
    intro te e sims h
    simp only [categoryScores, Except.ok.injEq] at h
    rw [← h]
    simp
  | cons p ps ih =>
    intro te e sims h
    simp only [categoryScores] at h
    rcases hc : compute_similarity te (e p.2) with e1 | s
    · rw [hc] at h; exact absurd h (by simp)
    · rw [hc] at h
      rcases hr : categoryScores te e ps with e2 | rest
      · rw [hr] at h; exact absurd h (by simp)
      · rw [hr] at h
        simp only [Except.ok.injEq] at h
        rw [← h]
        simp only [List.map_cons]
        rw [ih te e rest hr]

/-- C8 counterexample: the classifier does not fail on empty input; with a
total embedding function it classifies the empty string like any other
text and returns a category (here animal). No EmptyInput error exists in
the code: get_semantic_category performs no blank-text check. -/
theorem empty_text_classified_counterexample :
    get_semantic_category "" embedOne = Except.ok "animal" := by
  have hcs : categoryScores (embedOne "") embedOne probes =
      Except.ok [("animal", 1), ("human", 1), ("object", 1)] := by
    simp only [categoryScores, probes]
    have h1 : compute_similarity (embedOne "") (embedOne "animal pet creature") =
        Except.ok 1 := sim_one
    have h2 : compute_similarity (embedOne "") (embedOne "human person people") =
        Except.ok 1 := sim_one
    have h3 : compute_similarity (embedOne "") (embedOne "thing object item") =
        Except.ok 1 := sim_one
    simp only [h1, h2, h3]
  simp only [get_semantic_category, hcs, pyMax, List.foldl]
  norm_num

/-- C8 amended: the classifier has no emptiness check and no EmptyInput
error: for every text, empty or whitespace-only included, whenever the
probe scoring succeeds the classifier returns normally, and its result is
one of the three fixed categories. -/
theorem classifier_no_empty_check (text : String) (embed : String → List ℝ)
    (c : String) (h : get_semantic_category text embed = Except.ok c) :
    c = "animal" ∨ c = "human" ∨ c = "object" := by
  rcases hc : categoryScores (embed text) embed probes with e | sims
  · rw [get_semantic_category, hc] at h
    exact absurd h (by simp)
  · rw [get_semantic_category, hc] at h
    simp only [Except.ok.injEq] at h
    have hf := categoryScores_ok_map_fst probes _ _ _ hc
    cases sims with
    | nil => simp [probes] at hf
    | cons x xs =>
      have hm : (pyMax (x :: xs)).1 ∈ (x :: xs).map Prod.fst :=
        List.mem_map_of_mem _ (pyMax_mem x xs)
      rw [hf] at hm
      rw [← h]
      simpa [probes] using hm

theorem classifier_no_empty_check_witness :
    get_semantic_category " " embedOne = Except.ok "animal" ∧
    ("animal" = "animal" ∨ "animal" = "human" ∨ "animal" = "object") := by
  have hws : get_semantic_category " " embedOne = Except.ok "animal" := by
    have hcs : categoryScores (embedOne " ") embedOne probes =
        Except.ok [("animal", 1), ("human", 1), ("object", 1)] := by
      simp only [categoryScores, probes]
      have h1 : compute_similarity (embedOne " ") (embedOne "animal pet creature") =
          Except.ok 1 := sim_one
      have h2 : compute_similarity (embedOne " ") (embedOne "human person people") =
          Except.ok 1 := sim_one
      have h3 : compute_similarity (embedOne " ") (embedOne "thing object item") =
          Except.ok 1 := sim_one
      simp only [h1, h2, h3]
    simp only [get_semantic_category, hcs, pyMax, List.foldl]
    norm_num
  exact ⟨hws, classifier_no_empty_check " " embedOne "animal" hws⟩

theorem scoreDesc_trans (a b c : String × ℝ) (h1 : scoreDesc a b = true)
    (h2 : scoreDesc b c = true) : scoreDesc a c = true := by
  simp only [scoreDesc, decide_eq_true_eq] at h1 h2 ⊢
  exact h2.trans h1

theorem scoreDesc_total (a b : String × ℝ) : (scoreDesc a b || scoreDesc b a) = true := by
  simp only [scoreDesc, Bool.or_eq_true, decide_eq_true_eq]
  exact le_total b.2 a.2

theorem mergeSort_filter_of_ties {α : Type} (le : α → α → Bool)
    (htrans : ∀ a b c, le a b = true → le b c = true → le a c = true)
    (htotal : ∀ a b, (le a b || le b a) = true)
    (l : List α) (S : α → Bool)
    (hS : ∀ a b, S a = true → S b = true → le a b = true) :
    (l.mergeSort le).filter S = l.filter S := by
  have hpw : (l.filter S).Pairwise (fun a b => le a b = true) := by
    apply List.pairwise_of_forall_mem_list
    intro a ha b hb
    exact hS a b (List.of_mem_filter ha) (List.of_mem_filter hb)
  have h1 : List.Sublist (l.filter S) (l.mergeSort le) :=
    List.sublist_mergeSort htrans htotal hpw (List.filter_sublist l)
  have h2 : List.Perm ((l.mergeSort le).filter S) (l.filter S) :=
    (List.mergeSort_perm l le).filter S
  have h3 : (l.filter S).filter S = l.filter S :=
    List.filter_eq_self.mpr (fun a ha => List.of_mem_filter ha)
  have h4 : List.Sublist (l.filter S) ((l.mergeSort le).filter S) := by
    have h5 := h1.filter S
    rw [h3] at h5
    exact h5
  exact (h4.eq_of_length h2.length_eq.symm).symm

theorem wordScores_ok_map_fst :
    ∀ (ws : List String) (te : List ℝ) (e : String → List ℝ)
      (sims : List (String × ℝ)), wordScores te e ws = Except.ok sims →
      sims.map Prod.fst = ws := by
  intro ws
  induction ws with
  | nil =>
    intro te e sims h
    simp only [wordScores, Except.ok.injEq] at h
    rw [← h]
    simp
  | cons w ws ih =>
    intro te e sims h
    simp only [wordScores] at h
    rcases hc : compute_similarity te (e w) with e1 | s
    · rw [hc] at h; exact absurd h (by simp)
    · rw [hc] at h
      rcases hr : wordScores te e ws with e2 | rest
      · rw [hr] at h; exact absurd h (by simp)
      · rw [hr] at h
        simp only [Except.ok.injEq] at h
        rw [← h]
        simp only [List.map_cons]
        rw [ih te e rest hr]

theorem field_ok_inv (text lang : String) (embed : String → List ℝ)
    (result : List (String × ℝ))
    (h : get_semantic_field text lang embed = Except.ok result) :
    ∃ category byLang vocab sims,
      get_semantic_category text embed = Except.ok category ∧
      List.lookup category SEMANTIC_CONTEXT = some byLang ∧
      List.lookup lang byLang = some vocab ∧
      wordScores (embed text) embed vocab = Except.ok sims ∧
      result = sims.mergeSort scoreDesc := by
  rcases hcat : get_semantic_category text embed with e | category
  · simp only [get_semantic_field, hcat] at h
    exact absurd h (by simp)
  · simp only [get_semantic_field, hcat] at h
    rcases hby : List.lookup category SEMANTIC_CONTEXT with _ | byLang
    · simp only [hby] at h
      exact absurd h (by simp)
    · simp only [hby] at h
      rcases hv : List.lookup lang byLang with _ | vocab
      · simp only [hv] at h
        exact absurd h (by simp)
      · simp only [hv] at h
        rcases hws : wordScores (embed text) embed vocab with e2 | sims
        · simp only [hws] at h
          exact absurd h (by simp)
        · simp only [hws, Except.ok.injEq] at h
          exact ⟨category, byLang, vocab, sims, rfl, hby, hv, hws, h.symm⟩

theorem cat_eval (t : String) : get_semantic_category t embedOne = Except.ok "animal" := by
  have hcs : categoryScores (embedOne t) embedOne probes =
      Except.ok [("animal", 1), ("human", 1), ("object", 1)] := by
    simp only [categoryScores, probes]
    have h1 : compute_similarity (embedOne t) (embedOne "animal pet creature") =
        Except.ok 1 := sim_one
    have h2 : compute_similarity (embedOne t) (embedOne "human person people") =
        Except.ok 1 := sim_one
    have h3 : compute_similarity (embedOne t) (embedOne "thing object item") =
        Except.ok 1 := sim_one
    simp only [h1, h2, h3]
  simp only [get_semantic_category, hcs, pyMax, List.foldl]
  norm_num

theorem wordScores_embedOne : ∀ (ws : List String),
    wordScores [(1 : ℝ)] embedOne ws = Except.ok (ws.map (fun w => (w, (1 : ℝ)))) := by
  intro ws
  induction ws with
  | nil => simp [wordScores]
  | cons w ws ih =>
    have hw : compute_similarity [(1 : ℝ)] (embedOne w) = Except.ok 1 := sim_one
    simp only [wordScores, hw, ih, List.map_cons]

theorem field_eval (t lang : String) (byLang : List (String × List String))
    (vocab : List String)
    (hby : List.lookup "animal" SEMANTIC_CONTEXT = some byLang)
    (hv : List.lookup lang byLang = some vocab) :
    get_semantic_field t lang embedOne = Except.ok (vocab.map (fun w => (w, (1 : ℝ)))) := by
  have hws : wordScores (embedOne t) embedOne vocab =
      Except.ok (vocab.map (fun w => (w, (1 : ℝ)))) := wordScores_embedOne vocab
  have hsorted : (vocab.map (fun w => (w, (1 : ℝ)))).Pairwise
      (fun a b => scoreDesc a b = true) := by
    apply List.pairwise_map.mpr
    apply List.pairwise_of_forall_mem_list
    intro a _ b _
    simp [scoreDesc]
  simp only [get_semantic_field, cat_eval, hby, hv, hws]
  rw [List.mergeSort_of_sorted hsorted]

/-- C2: whenever the ranker succeeds, its output is sorted by
non-increasing score, and entries with exactly equal scores keep the
relative order their terms have in the configured vocabulary list: for
every score, the output filtered to that score equals the vocabulary-order
scored list filtered to that score. -/
theorem rank_field_sorted_stable (text lang : String) (embed : String → List ℝ)
    (result : List (String × ℝ))
    (h : get_semantic_field text lang embed = Except.ok result) :
    result.Pairwise (fun a b => b.2 ≤ a.2) ∧
    ∃ category byLang vocab sims,
      get_semantic_category text embed = Except.ok category ∧
      List.lookup category SEMANTIC_CONTEXT = some byLang ∧
      List.lookup lang byLang = some vocab ∧
      wordScores (embed text) embed vocab = Except.ok sims ∧
      sims.map Prod.fst = vocab ∧
      ∀ s : ℝ, result.filter (fun p => decide (p.2 = s)) =
        sims.filter (fun p => decide (p.2 = s)) := by
  obtain ⟨category, byLang, vocab, sims, hcat, hby, hv, hws, hres⟩ :=
    field_ok_inv text lang embed result h
  constructor
  · rw [hres]
    have hp := List.sorted_mergeSort scoreDesc_trans scoreDesc_total sims
    exact hp.imp (fun hab => by simpa [scoreDesc] using hab)
  · refine ⟨category, byLang, vocab, sims, hcat, hby, hv, hws,
      wordScores_ok_map_fst vocab _ _ _ hws, ?_⟩
    intro s
    rw [hres]
    apply mergeSort_filter_of_ties scoreDesc scoreDesc_trans scoreDesc_total sims
    intro a b ha hb
    simp only [decide_eq_true_eq] at ha hb
    simp only [scoreDesc, decide_eq_true_eq]
    rw [ha, hb]

theorem rank_field_sorted_stable_witness :
    get_semantic_field "cat" "English" embedOne =
      Except.ok ((["animal", "pet", "creature", "mammal", "wildlife", "companion"]).map
        (fun w => (w, (1 : ℝ)))) ∧
    ((["animal", "pet", "creature", "mammal", "wildlife", "companion"]).map
        (fun w => (w, (1 : ℝ)))).Pairwise (fun a b => b.2 ≤ a.2) := by
  have hfe : get_semantic_field "cat" "English" embedOne =
      Except.ok ((["animal", "pet", "creature", "mammal", "wildlife", "companion"]).map
        (fun w => (w, (1 : ℝ)))) := field_eval "cat" "English" _ _ rfl rfl
  exact ⟨hfe, (rank_field_sorted_stable "cat" "English" embedOne _ hfe).1⟩

/-- C3: whenever the ranker succeeds, the length of the returned semantic
field equals the length of the configured vocabulary list of the resolved
(category, language) pair: no term is dropped and no deduplication
occurs. -/
theorem rank_field_length (text lang : String) (embed : String → List ℝ)
    (result : List (String × ℝ))
    (h : get_semantic_field text lang embed = Except.ok result) :
    ∃ category byLang vocab,
      get_semantic_category text embed = Except.ok category ∧
      List.lookup category SEMANTIC_CONTEXT = some byLang ∧
      List.lookup lang byLang = some vocab ∧
      result.length = vocab.length := by
  obtain ⟨category, byLang, vocab, sims, hcat, hby, hv, hws, hres⟩ :=
    field_ok_inv text lang embed result h
  refine ⟨category, byLang, vocab, hcat, hby, hv, ?_⟩
  rw [hres, List.length_mergeSort]
  rw [← wordScores_ok_map_fst vocab _ _ _ hws, List.length_map]

theorem rank_field_length_witness :
    get_semantic_field "cat" "English" embedOne =
      Except.ok ((["animal", "pet", "creature", "mammal", "wildlife", "companion"]).map
        (fun w => (w, (1 : ℝ)))) ∧
    (∃ category byLang vocab,
      get_semantic_category "cat" embedOne = Except.ok category ∧
      List.lookup category SEMANTIC_CONTEXT = some byLang ∧
      List.lookup "English" byLang = some vocab ∧
      ((["animal", "pet", "creature", "mammal", "wildlife", "companion"]).map
        (fun w => (w, (1 : ℝ)))).length = vocab.length) := by
  have hfe : get_semantic_field "cat" "English" embedOne =
      Except.ok ((["animal", "pet", "creature", "mammal", "wildlife", "companion"]).map
        (fun w => (w, (1 : ℝ)))) := field_eval "cat" "English" _ _ rfl rfl
  exact ⟨hfe, rank_field_length "cat" "English" embedOne _ hfe⟩

/-- C10: whenever the ranker succeeds, the terms of the returned semantic
field are exactly (as a permutation, since the output is re-sorted) the
configured vocabulary list of the category that the classifier assigns to
the same input text; get_semantic_field takes no category parameter and
re-derives the category from the text itself. -/
theorem rank_field_terms_from_classifier (text lang : String)
    (embed : String → List ℝ) (result : List (String × ℝ))
    (h : get_semantic_field text lang embed = Except.ok result) :
    ∃ category byLang vocab,
      get_semantic_category text embed = Except.ok category ∧
      List.lookup category SEMANTIC_CONTEXT = some byLang ∧
      List.lookup lang byLang = some vocab ∧
      List.Perm (result.map Prod.fst) vocab := by
  obtain ⟨category, byLang, vocab, sims, hcat, hby, hv, hws, hres⟩ :=
    field_ok_inv text lang embed result h
  refine ⟨category, byLang, vocab, hcat, hby, hv, ?_⟩
  have hperm : List.Perm (result.map Prod.fst) (sims.map Prod.fst) := by
    rw [hres]
    exact (List.mergeSort_perm sims scoreDesc).map Prod.fst
  rw [wordScores_ok_map_fst vocab _ _ _ hws] at hperm
  exact hperm

theorem rank_field_terms_from_classifier_witness :
    get_semantic_field "cat" "English" embedOne =
      Except.ok ((["animal", "pet", "creature", "mammal", "wildlife", "companion"]).map
        (fun w => (w, (1 : ℝ)))) ∧
    (∃ category byLang vocab,
      get_semantic_category "cat" embedOne = Except.ok category ∧
      List.lookup category SEMANTIC_CONTEXT = some byLang ∧
      List.lookup "English" byLang = some vocab ∧
      List.Perm (((["animal", "pet", "creature", "mammal", "wildlife", "companion"]).map
        (fun w => (w, (1 : ℝ)))).map Prod.fst) vocab) := by
  have hfe : get_semantic_field "cat" "English" embedOne =
      Except.ok ((["animal", "pet", "creature", "mammal", "wildlife", "companion"]).map
        (fun w => (w, (1 : ℝ)))) := field_eval "cat" "English" _ _ rfl rfl
  exact ⟨hfe, rank_field_terms_from_classifier "cat" "English" embedOne _ hfe⟩

/-- C7: when the category resolved for the text has no vocabulary list for
the requested language, the ranker fails with the unsupported-language
error (the KeyError of the lookup SEMANTIC_CONTEXT[category][lang], the
spec's UnsupportedLanguage). -/
theorem unsupported_language_fails (text lang : String) (embed : String → List ℝ)
    (category : String) (byLang : List (String × List String))
    (hcat : get_semantic_category text embed = Except.ok category)
    (hby : List.lookup category SEMANTIC_CONTEXT = some byLang)
    (hv : List.lookup lang byLang = none) :
    get_semantic_field text lang embed = Except.error PyErr.unsupportedLanguage := by
  simp only [get_semantic_field, hcat, hby, hv]

theorem unsupported_language_fails_witness :
    get_semantic_category "cat" embedOne = Except.ok "animal" ∧
    get_semantic_field "cat" "Klingon" embedOne =
      Except.error PyErr.unsupportedLanguage := by
  have hcat : get_semantic_category "cat" embedOne = Except.ok "animal" := cat_eval "cat"
  exact ⟨hcat, unsupported_language_fails "cat" "Klingon" embedOne "animal" _ hcat rfl rfl⟩

theorem analyze_ok_score (text1 lang1 text2 lang2 : String) (embed : String → List ℝ)
    (r : ℝ × List (String × ℝ) × List (String × ℝ))
    (h : analyze text1 lang1 text2 lang2 embed = Except.ok r) :
    compute_similarity (embed text1) (embed text2) = Except.ok r.1 := by
  rcases hs : compute_similarity (embed text1) (embed text2) with e | s
  · simp only [analyze, hs] at h
    exact absurd h (by simp)
  · simp only [analyze, hs] at h
    rcases hf1 : get_semantic_field text1 lang1 embed with e | f1
    · simp only [hf1] at h
      exact absurd h (by simp)
    · simp only [hf1] at h
      rcases hf2 : get_semantic_field text2 lang2 embed with e | f2
      · simp only [hf2] at h
        exact absurd h (by simp)
      · simp only [hf2, Except.ok.injEq] at h
        rw [← h]

/-- C6: the overall similarity score of the comparator depends only on the
two texts and the embedding function, never on the language tags: two
successful runs on the same texts and embedding function with arbitrary,
possibly different, language tags return the same score. -/
theorem comparator_score_language_independent (text1 text2 : String)
    (embed : String → List ℝ) (lang1 lang2 lang1b lang2b : String)
    (r rb : ℝ × List (String × ℝ) × List (String × ℝ))
    (ha : analyze text1 lang1 text2 lang2 embed = Except.ok r)
    (hb : analyze text1 lang1b text2 lang2b embed = Except.ok rb) :
    r.1 = rb.1 := by
  have ea := analyze_ok_score text1 lang1 text2 lang2 embed r ha
  have eb := analyze_ok_score text1 lang1b text2 lang2b embed rb hb
  rw [ea] at eb
  exact (Except.ok.injEq _ _).mp eb

theorem comparator_score_language_independent_witness :
    analyze "cat" "English" "dog" "French" embedOne =
      Except.ok ((1 : ℝ),
        (["animal", "pet", "creature", "mammal", "wildlife", "companion"]).map
          (fun w => (w, (1 : ℝ))),
        (["animal", "animal de compagnie", "créature", "mammifère", "faune",
          "compagnon"]).map (fun w => (w, (1 : ℝ)))) ∧
    analyze "cat" "Spanish" "dog" "Japanese" embedOne =
      Except.ok ((1 : ℝ),
        (["animal", "mascota", "criatura", "mamífero", "fauna", "compañero"]).map
          (fun w => (w, (1 : ℝ))),
        (["動物", "ペット", "生き物", "哺乳類", "野生動物", "仲間"]).map
          (fun w => (w, (1 : ℝ)))) ∧
    ((1 : ℝ),
        (["animal", "pet", "creature", "mammal", "wildlife", "companion"]).map
          (fun w => (w, (1 : ℝ))),
        (["animal", "animal de compagnie", "créature", "mammifère", "faune",
          "compagnon"]).map (fun w => (w, (1 : ℝ)))).1 =
      ((1 : ℝ),
        (["animal", "mascota", "criatura", "mamífero", "fauna", "compañero"]).map
          (fun w => (w, (1 : ℝ))),
        (["動物", "ペット", "生き物", "哺乳類", "野生動物", "仲間"]).map
          (fun w => (w, (1 : ℝ)))).1 := by
  have hs : compute_similarity (embedOne "cat") (embedOne "dog") = Except.ok 1 := sim_one
  have hf1 := field_eval "cat" "English" _ _ rfl rfl
  have hf2 := field_eval "dog" "French" _ _ rfl rfl
  have hf3 := field_eval "cat" "Spanish" _ _ rfl rfl
  have hf4 := field_eval "dog" "Japanese" _ _ rfl rfl
  have ha : analyze "cat" "English" "dog" "French" embedOne =
      Except.ok ((1 : ℝ),
        (["animal", "pet", "creature", "mammal", "wildlife", "companion"]).map
          (fun w => (w, (1 : ℝ))),
        (["animal", "animal de compagnie", "créature", "mammifère", "faune",
          "compagnon"]).map (fun w => (w, (1 : ℝ)))) := by
    simp only [analyze, hs, hf1, hf2]
  have hb : analyze "cat" "Spanish" "dog" "Japanese" embedOne =
      Except.ok ((1 : ℝ),
        (["animal", "mascota", "criatura", "mamífero", "fauna", "compañero"]).map
          (fun w => (w, (1 : ℝ))),
        (["動物", "ペット", "生き物", "哺乳類", "野生動物", "仲間"]).map
          (fun w => (w, (1 : ℝ)))) := by
    simp only [analyze, hs, hf3, hf4]
  exact ⟨ha, hb, comparator_score_language_independent "cat" "dog" embedOne
    "English" "French" "Spanish" "Japanese" _ _ ha hb⟩
